import Mathlib

/-!
Verification of the simulation core of `tynberry/info_project`.

This file gives a shallow embedding of the per-tick simulation systems
(motion integration, physics damping, boundary wrapping, collision
detection, knockback and damage resolution) as Lean functions over an
explicit entity-list world, translated from the Rust source, and proves
or refutes the frozen specification claims about them.

Scalars (`f32` in the source) are modelled by an arbitrary linear ordered
field; systems that need square roots (vector normalisation, damping) are
specialised to the reals.
-/

namespace InfoProject

/-- Two-dimensional vector, modelling `macroquad::math::Vec2`. -/
@[ext]
structure Vec2 (α : Type) where
  x : α
  y : α
deriving DecidableEq

variable {α : Type} [LinearOrderedField α]

instance : Add (Vec2 α) := ⟨fun a b => ⟨a.x + b.x, a.y + b.y⟩⟩
instance : Sub (Vec2 α) := ⟨fun a b => ⟨a.x - b.x, a.y - b.y⟩⟩
instance : Neg (Vec2 α) := ⟨fun a => ⟨-a.x, -a.y⟩⟩
instance : Zero (Vec2 α) := ⟨⟨0, 0⟩⟩
instance : SMul α (Vec2 α) := ⟨fun c v => ⟨c * v.x, c * v.y⟩⟩

@[simp] theorem Vec2.add_x (a b : Vec2 α) : (a + b).x = a.x + b.x := rfl
@[simp] theorem Vec2.add_y (a b : Vec2 α) : (a + b).y = a.y + b.y := rfl
@[simp] theorem Vec2.sub_x (a b : Vec2 α) : (a - b).x = a.x - b.x := rfl
@[simp] theorem Vec2.sub_y (a b : Vec2 α) : (a - b).y = a.y - b.y := rfl
@[simp] theorem Vec2.zero_x : (0 : Vec2 α).x = 0 := rfl
@[simp] theorem Vec2.zero_y : (0 : Vec2 α).y = 0 := rfl
@[simp] theorem Vec2.smul_x (c : α) (v : Vec2 α) : (c • v).x = c * v.x := rfl
@[simp] theorem Vec2.smul_y (c : α) (v : Vec2 α) : (c • v).y = c * v.y := rfl

theorem Vec2.sub_self (v : Vec2 α) : v - v = 0 := by ext <;> simp

theorem Vec2.sub_ne_zero {a b : Vec2 α} (h : a ≠ b) : a - b ≠ 0 := by
  intro hc
  apply h
  have hx : a.x - b.x = 0 := congrArg Vec2.x hc
  have hy : a.y - b.y = 0 := congrArg Vec2.y hc
  ext
  · linarith [hx]
  · linarith [hy]

theorem Vec2.smul_zero (c : α) : c • (0 : Vec2 α) = 0 := by ext <;> simp

theorem Vec2.add_zero_right (v : Vec2 α) : v + 0 = v := by ext <;> simp

/-- Squared length of a vector, modelling `Vec2::length_squared`. -/
def Vec2.length_squared (v : Vec2 α) : α := v.x * v.x + v.y * v.y

/-- Length of a real vector, modelling `Vec2::length`. -/
noncomputable def Vec2.length (v : Vec2 ℝ) : ℝ := Real.sqrt v.length_squared

/-- Normalisation returning the zero vector on zero input, modelling
`Vec2::normalize_or_zero`. -/
noncomputable def Vec2.normalize_or_zero (v : Vec2 ℝ) : Vec2 ℝ :=
  if 0 < v.length then ((1 : ℝ) / v.length) • v else 0

/-- Team of an entity, from `src/basic.rs`. -/
inductive Team where
  | Neutral
  | Player
  | Enemy
deriving DecidableEq

/-- Returns whether a member of team `self` can hurt a member of team
`other`; from `Team::can_hurt` in `src/basic.rs`: `self != other`. -/
def Team.can_hurt (self other : Team) : Bool := self != other

/-- Collision event, from `HitEvent` in `src/basic/health.rs`.  The field
named `by` in the source is called `by_` here because `by` is a Lean
keyword. -/
structure HitEvent where
  who : Nat
  by_ : Nat
  can_hurt : Bool
deriving DecidableEq

/-- Physics motion component: velocity and mass, from `PhysicsMotion` in
`src/basic/motion.rs`. -/
structure PhysicsMotion (α : Type) where
  vel : Vec2 α
  mass : α
deriving DecidableEq

/-- Applies a force on the entity during time `dt`, from
`PhysicsMotion::apply_force`: `self.vel += force * dt / self.mass`. -/
def PhysicsMotion.apply_force (p : PhysicsMotion α) (force : Vec2 α) (dt : α) :
    PhysicsMotion α :=
  { p with vel := p.vel + (dt / p.mass) • force }

/-- Damping component, from `PhysicsDamping` in `src/basic/motion.rs`. -/
structure PhysicsDamping (α : Type) where
  mul_factor : α
  flat_factor : α
deriving DecidableEq

/-- Health component, from `Health` in `src/basic/health.rs`. -/
structure Health (α : Type) where
  max_hp : α
  hp : α
deriving DecidableEq

/-- Increases `hp` by `amount` while not going over max health, from
`Health::heal`. -/
def Health.heal (h : Health α) (amount : α) : Health α :=
  let hp := h.hp + amount
  if hp > h.max_hp then { h with hp := h.max_hp } else { h with hp := hp }

/-- Player component; of the fields of `Player` in `src/player.rs` only
`invul_timer` is read or written by the embedded systems, so only it is
modelled. -/
structure Player (α : Type) where
  invul_timer : α
deriving DecidableEq

/-- An entity: a stable identity plus optional components, modelling a row
of the `hecs::World`.  Marker components are booleans. -/
structure Entity (α : Type) where
  id : Nat
  pos : Option (Vec2 α) := none
  rot : Option α := none
  linear : Option (Vec2 α) := none
  torgue : Option α := none
  physics : Option (PhysicsMotion α) := none
  damping : Option (PhysicsDamping α) := none
  max_velocity : Option α := none
  hit_box : Option α := none
  hurt_box : Option α := none
  team : Option Team := none
  health : Option (Health α) := none
  damage_dealer : Option α := none
  knockback : Option α := none
  player : Option (Player α) := none
  enemy : Bool := false
  wrapped : Bool := false
  delete_on_warp : Bool := false
deriving DecidableEq

/-- Looks up an entity by id, modelling `World::entity` / `World::get`. -/
def find_entity (world : List (Entity α)) (id : Nat) : Option (Entity α) :=
  world.find? (fun e => e.id == id)

/-- Damage dealt by the entity `id`, modelling
`world.get::<&DamageDealer>(id)` (`Err` becomes `none`). -/
def damage_of (world : List (Entity α)) (id : Nat) : Option α :=
  (find_entity world id).bind (fun e => e.damage_dealer)

/-- Current hit points of the entity `id`, used to observe results. -/
def health_of (world : List (Entity α)) (id : Nat) : Option α :=
  (find_entity world id).bind (fun e => e.health.map (fun h => h.hp))

/-- Current physics velocity of the entity `id`, used to observe results. -/
def vel_of (world : List (Entity α)) (id : Nat) : Option (Vec2 α) :=
  (find_entity world id).bind (fun e => e.physics.map (fun p => p.vel))

/-- Collision detection between hit boxes and hurt boxes, from
`ensure_damage` in `src/basic/health.rs`: for every entity with
`Position`, `HitBox` and `Team` and every entity with `Position`,
`HurtBox` and `Team`, self pairs are skipped (`hurt_id == hit_id`
continues), and a `HitEvent` is emitted when the squared distance is
below the squared sum of the radii, with `can_hurt` computed from the
two teams. -/
def ensure_damage (world : List (Entity α)) : List HitEvent :=
  world.flatMap (fun hit =>
    match hit.pos, hit.hit_box, hit.team with
    | some hit_pos, some hit_radius, some hit_team =>
      world.flatMap (fun hurt =>
        match hurt.pos, hurt.hurt_box, hurt.team with
        | some hurt_pos, some hurt_radius, some hurt_team =>
          if hurt.id = hit.id then []
          else if (hit_pos.x - hurt_pos.x) * (hit_pos.x - hurt_pos.x)
              + (hit_pos.y - hurt_pos.y) * (hit_pos.y - hurt_pos.y)
              < (hurt_radius + hit_radius) ^ 2 then
            [{ who := hit.id, by_ := hurt.id,
               can_hurt := hurt_team.can_hurt hit_team }]
          else []
        | _, _, _ => [])
    | _, _, _ => [])

/-- Boundary wrap of a single position, from the first loop of
`ensure_wrapping` in `src/basic.rs` (four sequential `if`s). -/
def wrap_position (width height : α) (p : Vec2 α) : Vec2 α :=
  let x1 := if p.x > width then 0 else p.x
  let x2 := if x1 < 0 then width else x1
  let y1 := if p.y > height then 0 else p.y
  let y2 := if y1 < 0 then height else y1
  ⟨x2, y2⟩

/-- Boundary manager, from `ensure_wrapping` in `src/basic.rs`: first the
positions of `Wrapped` entities are wrapped, then every `DeleteOnWarp`
entity more than 100 units outside the screen has a despawn command
pushed (one command per violated side, as in the source).  Returns the
updated world and the despawn commands. -/
def ensure_wrapping (width height : α) (world : List (Entity α)) :
    List (Entity α) × List Nat :=
  let world1 := world.map (fun e =>
    if e.wrapped then { e with pos := e.pos.map (wrap_position width height) }
    else e)
  let cmds := world1.flatMap (fun e =>
    if e.delete_on_warp then
      match e.pos with
      | some p =>
        (if p.x > width + 100 then [e.id] else []) ++
        (if p.x < -100 then [e.id] else []) ++
        (if p.y > height + 100 then [e.id] else []) ++
        (if p.y < -100 then [e.id] else [])
      | none => []
    else [])
  (world1, cmds)

/-- Linear-motion pass of `apply_motion` in `src/basic/motion.rs`:
entities with `LinearMotion` and `Position` advance their position. -/
def linear_step (dt : α) (e : Entity α) : Entity α :=
  match e.linear, e.pos with
  | some l, some p => { e with pos := some ⟨p.x + l.x * dt, p.y + l.y * dt⟩ }
  | _, _ => e

/-- Torque pass of `apply_motion`: entities with `LinearTorgue` and
`Rotation` advance their angle. -/
def torgue_step (dt : α) (e : Entity α) : Entity α :=
  match e.torgue, e.rot with
  | some s, some a => { e with rot := some (a + s * dt) }
  | _, _ => e

/-- Physics-motion pass of `apply_motion`: entities with `PhysicsMotion`
and `Position` advance their position. -/
def physics_step (dt : α) (e : Entity α) : Entity α :=
  match e.physics, e.pos with
  | some ph, some p =>
    { e with pos := some ⟨p.x + ph.vel.x * dt, p.y + ph.vel.y * dt⟩ }
  | _, _ => e

/-- Motion integration, from `apply_motion` in `src/basic/motion.rs`:
three passes over the world, linear motion first, then torque, then
physics motion. -/
def apply_motion (world : List (Entity α)) (dt : α) : List (Entity α) :=
  ((world.map (linear_step dt)).map (torgue_step dt)).map (physics_step dt)

/-- Damping phase of `apply_physics` in `src/basic/motion.rs` applied to
one velocity: multiply by `mul_factor ^ dt`, then zero the velocity if
its squared length is at most `flat_factor`, else subtract
`flat_factor * dt` along the current direction. -/
noncomputable def damp_velocity (damping : PhysicsDamping ℝ) (dt : ℝ)
    (vel : Vec2 ℝ) : Vec2 ℝ :=
  if ((damping.mul_factor ^ dt) • vel).length_squared
      ≤ damping.flat_factor then 0
  else (damping.mul_factor ^ dt) • vel
    - (damping.flat_factor * dt)
        • ((damping.mul_factor ^ dt) • vel).normalize_or_zero

/-- Replaces the physics component of entity `id`. -/
def set_physics (world : List (Entity α)) (id : Nat) (p : PhysicsMotion α) :
    List (Entity α) :=
  world.map (fun e => if e.id = id then { e with physics := some p } else e)

/-- Processing of one `HitEvent` by `apply_knockback` in
`src/basic/motion.rs`: skip self events, skip when the dealer entity or
its `KnockbackDealer` or `Position` is missing, skip when the victim
entity or its `PhysicsMotion` or `Position` is missing, otherwise apply
the dealer force along the normal from dealer to victim with `dt = 1.0`.
The source's chain of `let ... else continue` bindings is modelled by the
`Option.bind` chain, with `getD world` realising each `continue` as a
skip that leaves the world unchanged. -/
noncomputable def knockback_step (world : List (Entity ℝ)) (ev : HitEvent) :
    List (Entity ℝ) :=
  if ev.who = ev.by_ then world
  else
    ((find_entity world ev.by_).bind (fun deal_ent =>
      deal_ent.knockback.bind (fun force =>
      deal_ent.pos.bind (fun deal_pos =>
      (find_entity world ev.who).bind (fun victim_ent =>
      victim_ent.physics.bind (fun victim_vel =>
      victim_ent.pos.map (fun victim_pos =>
        set_physics world ev.who
          (victim_vel.apply_force
            (force • Vec2.normalize_or_zero (victim_pos - deal_pos))
            1)))))))).getD world

/-- Knockback resolver, from `apply_knockback` in `src/basic/motion.rs`:
processes all events in order. -/
noncomputable def apply_knockback (world : List (Entity ℝ))
    (events : List HitEvent) : List (Entity ℝ) :=
  events.foldl knockback_step world

/-- Health of the entity `id` as seen through the enemy view of
`enemy::health`: present only when the entity exists, has the `Enemy`
marker and has `Health`. -/
def enemy_hp (world : List (Entity α)) (id : Nat) : Option (Health α) :=
  match find_entity world id with
  | some e => if e.enemy then e.health else none
  | none => none

/-- Replaces the health component of entity `id`. -/
def set_health (world : List (Entity α)) (id : Nat) (h : Health α) :
    List (Entity α) :=
  world.map (fun e => if e.id = id then { e with health := some h } else e)

/-- Processing of one `HitEvent` by `health` in `src/enemy.rs`: skip when
the victim is not an enemy with health or the attacker has no
`DamageDealer`; otherwise subtract the damage and, when the new hit
points are at most zero, push a despawn command for the victim. -/
def enemy_health_step (wc : List (Entity α) × List Nat) (ev : HitEvent) :
    List (Entity α) × List Nat :=
  match enemy_hp wc.1 ev.who with
  | none => wc
  | some hp =>
    match damage_of wc.1 ev.by_ with
    | none => wc
    | some dmg =>
      let hp1 : Health α := { hp with hp := hp.hp - dmg }
      let world1 := set_health wc.1 ev.who hp1
      if hp1.hp ≤ 0 then (world1, wc.2 ++ [ev.who]) else (world1, wc.2)

/-- Generic-enemy damage resolver, from `health` in `src/enemy.rs`:
processes all events in order, threading the world and the command
buffer. -/
def enemy_health (world : List (Entity α)) (events : List HitEvent)
    (cmd : List Nat) : List (Entity α) × List Nat :=
  events.foldl enemy_health_step (world, cmd)

/-- Invulnerability cooldown between player hits,
`PLAYER_INVUL_COOLDOWN` in `src/player.rs`. -/
def player_invul_cooldown : α := 1

/-- Player health regeneration per second, `PLAYER_BASE_HP_REGEN` in
`src/player.rs`. -/
def player_base_hp_regen : α := 3 / 10

/-- First entity carrying both `Player` and `Health`, modelling
`world.query::<(&mut Player, &mut Health)>().next()`. -/
def find_player (world : List (Entity α)) : Option (Entity α) :=
  world.find? (fun e => e.player.isSome && e.health.isSome)

/-- Replaces the player and health components of entity `id`. -/
def set_player (world : List (Entity α)) (id : Nat) (p : Player α)
    (h : Health α) : List (Entity α) :=
  world.map (fun e =>
    if e.id = id then { e with player := some p, health := some h } else e)

/-- Processing of one `HitEvent` by the loop of `health` in
`src/player.rs`: events not addressed to the player or with `can_hurt`
false are skipped, as are events whose attacker has no `DamageDealer`;
otherwise the damage is subtracted and the invulnerability timer is set
to the cooldown. -/
def player_health_step (world : List (Entity α)) (pid : Nat)
    (s : Player α × Health α) (ev : HitEvent) : Player α × Health α :=
  if ev.who = pid then
    if ev.can_hurt then
      match damage_of world ev.by_ with
      | none => s
      | some dmg =>
        ({ invul_timer := player_invul_cooldown },
         { s.2 with hp := s.2.hp - dmg })
    else s
  else s

/-- Player damage resolver, from `health` in `src/player.rs`: the
invulnerability timer is decremented by `dt`; while it stays positive the
call stores the new timer and does nothing else (no regeneration, all
events ignored); otherwise health regenerates and the events are
processed in order.  `none` models the `unwrap` panic when no player
entity exists. -/
def player_health (world : List (Entity α)) (events : List HitEvent)
    (dt : α) : Option (List (Entity α)) :=
  (find_player world).bind (fun pe =>
    pe.player.bind (fun p =>
      pe.health.map (fun hp =>
        if p.invul_timer - dt > 0 then
          set_player world pe.id { invul_timer := p.invul_timer - dt } hp
        else
          let s := events.foldl (player_health_step world pe.id)
            ({ invul_timer := p.invul_timer - dt },
             hp.heal (player_base_hp_regen * dt))
          set_player world pe.id s.1 s.2)))

/-- One system call inside `game_update` in `src/game/state.rs`. -/
inductive Pass where
  | player_weapons
  | player_motion_update
  | big_asteroid_ai
  | supercharged_asteroid_ai
  | follower_ai
  | mine_ai
  | xp_attraction
  | apply_physics
  | apply_motion
  | ensure_wrapping
  | ensure_damage
  | apply_knockback
  | player_health
  | enemy_health
  | projectile_on_hurt
  | xp_absorbtion
  | supercharged_asteroid_death
  | asteroid_death
  | big_asteroid_death
  | follower_death
  | mine_death
  | xp_bursts
  | enemy_spawning
  | command_buffer_flush
deriving DecidableEq

/-- The sequence of system calls executed by one `game_update` tick, in
the order of the statements of `game_update` in `src/game/state.rs`
(lines 114-156). -/
def game_update_passes : List Pass :=
  [.player_weapons, .player_motion_update,
   .big_asteroid_ai, .supercharged_asteroid_ai, .follower_ai, .mine_ai,
   .xp_attraction,
   .apply_physics, .apply_motion,
   .ensure_wrapping, .ensure_damage, .apply_knockback,
   .player_health, .enemy_health, .projectile_on_hurt,
   .xp_absorbtion,
   .supercharged_asteroid_death,
   .asteroid_death, .big_asteroid_death, .follower_death, .mine_death,
   .xp_bursts,
   .enemy_spawning,
   .command_buffer_flush]

/-! Helper lemmas about vector lengths and normalisation. -/

theorem Vec2.length_squared_nonneg (v : Vec2 α) : 0 ≤ v.length_squared := by
  unfold Vec2.length_squared
  nlinarith [mul_self_nonneg v.x, mul_self_nonneg v.y]

theorem Vec2.length_squared_pos {v : Vec2 α} (h : v ≠ 0) :
    0 < v.length_squared := by
  unfold Vec2.length_squared
  rcases eq_or_ne v.x 0 with hx | hx
  · rcases eq_or_ne v.y 0 with hy | hy
    · exact absurd (Vec2.ext hx hy) h
    · nlinarith [mul_self_nonneg v.x, mul_self_pos.mpr hy]
  · nlinarith [mul_self_nonneg v.y, mul_self_pos.mpr hx]

theorem Vec2.length_nonneg (v : Vec2 ℝ) : 0 ≤ v.length := Real.sqrt_nonneg _

theorem Vec2.length_pos {v : Vec2 ℝ} (h : v ≠ 0) : 0 < v.length :=
  Real.sqrt_pos.mpr (Vec2.length_squared_pos h)

theorem Vec2.length_zero : (0 : Vec2 ℝ).length = 0 := by
  unfold Vec2.length Vec2.length_squared
  simp

theorem Vec2.normalize_or_zero_zero : (0 : Vec2 ℝ).normalize_or_zero = 0 := by
  unfold Vec2.normalize_or_zero
  rw [Vec2.length_zero]
  simp

theorem Vec2.length_smul (c : ℝ) (v : Vec2 ℝ) :
    (c • v).length = |c| * v.length := by
  unfold Vec2.length Vec2.length_squared
  simp only [Vec2.smul_x, Vec2.smul_y]
  rw [show c * v.x * (c * v.x) + c * v.y * (c * v.y)
        = (c * c) * (v.x * v.x + v.y * v.y) by ring]
  rw [Real.sqrt_mul (mul_self_nonneg c), show c * c = c ^ 2 by ring,
    Real.sqrt_sq_eq_abs]

theorem Vec2.length_normalize_or_zero {v : Vec2 ℝ} (h : v ≠ 0) :
    v.normalize_or_zero.length = 1 := by
  have hp := Vec2.length_pos h
  unfold Vec2.normalize_or_zero
  rw [if_pos hp, Vec2.length_smul,
    abs_of_pos (by positivity : (0 : ℝ) < 1 / v.length)]
  field_simp

/-! Helper lemmas about the motion passes. -/

theorem linear_step_eq (dt : α) (e : Entity α) (l p : Vec2 α)
    (h1 : e.linear = some l) (h2 : e.pos = some p) :
    linear_step dt e = { e with pos := some ⟨p.x + l.x * dt, p.y + l.y * dt⟩ } := by
  unfold linear_step
  rw [h1, h2]

theorem physics_step_eq (dt : α) (e : Entity α) (ph : PhysicsMotion α)
    (p : Vec2 α) (h1 : e.physics = some ph) (h2 : e.pos = some p) :
    physics_step dt e
      = { e with pos := some ⟨p.x + ph.vel.x * dt, p.y + ph.vel.y * dt⟩ } := by
  unfold physics_step
  rw [h1, h2]

theorem torgue_step_preserves (dt : α) (e : Entity α) :
    (torgue_step dt e).pos = e.pos ∧ (torgue_step dt e).id = e.id ∧
    (torgue_step dt e).physics = e.physics := by
  unfold torgue_step
  rcases h1 : e.torgue with _ | s
  · exact ⟨rfl, rfl, rfl⟩
  · rcases h2 : e.rot with _ | a
    · exact ⟨rfl, rfl, rfl⟩
    · exact ⟨rfl, rfl, rfl⟩

/-- Characterisation (forward direction) of the events emitted by
`ensure_damage`: every emitted event comes from a hittable entity and a
distinct hurting entity, with `can_hurt` computed from their teams. -/
theorem mem_ensure_damage {world : List (Entity α)} {ev : HitEvent}
    (h : ev ∈ ensure_damage world) :
    ∃ hit hurt : Entity α, hit ∈ world ∧ hurt ∈ world ∧ hurt.id ≠ hit.id ∧
      ∃ ht ut, hit.team = some ht ∧ hurt.team = some ut ∧
        ev = ⟨hit.id, hurt.id, ut.can_hurt ht⟩ := by
  unfold ensure_damage at h
  obtain ⟨hit, hhit, h2⟩ := List.mem_flatMap.1 h
  split at h2
  · obtain ⟨hurt, hhurt, h3⟩ := List.mem_flatMap.1 h2
    split at h3
    · split at h3
      · simp at h3
      · split at h3
        · rename_i o1 o2 o3 hit_pos hit_radius hit_team hp1 hb1 ht1 o4 o5 o6
            hurt_pos hurt_radius hurt_team hp2 hb2 ht2 hid hdist
          exact ⟨hit, hurt, hhit, hhurt, hid, hit_team, hurt_team, ht1, ht2,
            List.mem_singleton.1 h3⟩
        · simp at h3
    · simp at h3
  · simp at h2

/-! Claim theorems. -/

/-- C2, counterexample: the claim puts motion integration before the
force-field resolver and the delete-on-exit pass after the damage
resolvers, but `game_update` calls `apply_physics` before `apply_motion`,
and the delete-on-exit scan (part of `ensure_wrapping`) runs before the
damage resolvers, not after them. -/
theorem c2_counterexample_physics_runs_first :
    ¬ game_update_passes.indexOf Pass.apply_motion
        < game_update_passes.indexOf Pass.apply_physics ∧
    ¬ game_update_passes.indexOf Pass.player_health
        < game_update_passes.indexOf Pass.ensure_wrapping := by decide

/-- C2, amended: one `game_update` tick runs the force-field resolver
(`apply_physics`) first, then motion integration (`apply_motion`), then
the boundary pass (`ensure_wrapping`, which both wraps and records
delete-on-exit despawn requests), then collision detection
(`ensure_damage`), then the knockback resolver, then the player and enemy
damage resolvers, then the death-despawn systems, and finally the
deferred command-buffer flush as the last pass. -/
theorem c2_amended_tick_pass_order :
    game_update_passes.indexOf Pass.apply_physics
        < game_update_passes.indexOf Pass.apply_motion ∧
    game_update_passes.indexOf Pass.apply_motion
        < game_update_passes.indexOf Pass.ensure_wrapping ∧
    game_update_passes.indexOf Pass.ensure_wrapping
        < game_update_passes.indexOf Pass.ensure_damage ∧
    game_update_passes.indexOf Pass.ensure_damage
        < game_update_passes.indexOf Pass.apply_knockback ∧
    game_update_passes.indexOf Pass.apply_knockback
        < game_update_passes.indexOf Pass.player_health ∧
    game_update_passes.indexOf Pass.player_health
        < game_update_passes.indexOf Pass.enemy_health ∧
    game_update_passes.indexOf Pass.enemy_health
        < game_update_passes.indexOf Pass.asteroid_death ∧
    game_update_passes.indexOf Pass.asteroid_death
        < game_update_passes.indexOf Pass.command_buffer_flush ∧
    game_update_passes.indexOf Pass.command_buffer_flush
        = game_update_passes.length - 1 := by decide

/-- C4, counterexample: a `Wrapped` entity at exactly `x == width` is not
wrapped to `x == 0` — the wrap condition is strict (`pos.x > width`), so
the position is left unchanged. -/
theorem c4_counterexample_edge_not_wrapped :
    wrap_position (100 : ℚ) 100 ⟨100, 5⟩ = ⟨100, 5⟩ ∧
    wrap_position (100 : ℚ) 100 ⟨100, 5⟩ ≠ ⟨0, 5⟩ := by
  constructor
  · norm_num [wrap_position]
  · norm_num [wrap_position]

/-- C4, amended: applying the boundary wrap to a position inside the
closed playfield bounds (including the edges) leaves it unchanged; in
particular an entity at exactly `x == width` keeps `x == width`, since
only positions strictly outside the bounds are wrapped. -/
theorem c4_amended_wrap_noop_inside_bounds (width height : α) (p : Vec2 α)
    (hx0 : 0 ≤ p.x) (hxw : p.x ≤ width) (hy0 : 0 ≤ p.y) (hyh : p.y ≤ height) :
    wrap_position width height p = p := by
  unfold wrap_position
  simp only [if_neg (not_lt.mpr hxw), if_neg (not_lt.mpr hx0),
    if_neg (not_lt.mpr hyh), if_neg (not_lt.mpr hy0)]

/-- C4, witness: a point with `x` exactly at the width is inside the
closed bounds and is left unchanged by the wrap pass. -/
theorem c4_witness :
    ((0 : ℚ) ≤ 100 ∧ (100 : ℚ) ≤ 100 ∧ (0 : ℚ) ≤ 5 ∧ (5 : ℚ) ≤ 100) ∧
    wrap_position (100 : ℚ) 100 ⟨100, 5⟩ = ⟨100, 5⟩ :=
  ⟨⟨by norm_num, by norm_num, by norm_num, by norm_num⟩,
   c4_amended_wrap_noop_inside_bounds 100 100 ⟨100, 5⟩
     (by norm_num) (by norm_num) (by norm_num) (by norm_num)⟩

/-- Concrete two-entity world over the rationals: entity 0 is hittable
(team Player), entity 1 is hurting (team Enemy), 3 units apart with
radii 5, so they overlap. -/
def hit_hurt_world : List (Entity ℚ) :=
  [{ id := 0, pos := some ⟨0, 0⟩, hit_box := some 5,
     team := some Team.Player },
   { id := 1, pos := some ⟨3, 0⟩, hurt_box := some 5,
     team := some Team.Enemy }]

/-- The detector emits exactly one event on `hit_hurt_world`. -/
theorem ensure_damage_hit_hurt :
    ensure_damage hit_hurt_world = [⟨0, 1, true⟩] := by
  norm_num [ensure_damage, hit_hurt_world, Team.can_hurt]
  decide

/-- C3, counterexample: a single entity carrying `Position`, `HitBox`,
`HurtBox` and `Team` produces no event at all — the detector skips the
pair formed by the entity with itself, so no self-directed `HitEvent`
with distance 0 is emitted, contrary to the claim. -/
theorem c3_counterexample_no_self_event :
    ensure_damage
      [({ id := 0, pos := some ⟨0, 0⟩, hit_box := some 5,
          hurt_box := some 5, team := some Team.Enemy } : Entity ℚ)]
      = [] := rfl

/-- C3, amended: the collision detector excludes self pairs by identity
(`hurt_id == hit_id` is skipped), so every emitted event has distinct
victim and attacker; an entity carrying both component sets never
receives a self-directed event. -/
theorem c3_amended_self_pairs_excluded (world : List (Entity α))
    (ev : HitEvent) (h : ev ∈ ensure_damage world) : ev.who ≠ ev.by_ := by
  obtain ⟨hit, hurt, _, _, hne, ht, ut, _, _, hev⟩ := mem_ensure_damage h
  rw [hev]
  exact fun hc => hne hc.symm

/-- C3, witness: the event emitted on `hit_hurt_world` has distinct
victim and attacker. -/
theorem c3_witness :
    (⟨0, 1, true⟩ : HitEvent) ∈ ensure_damage hit_hurt_world ∧
    (0 : Nat) ≠ 1 :=
  ⟨by rw [ensure_damage_hit_hurt]; exact List.mem_singleton.mpr rfl,
   c3_amended_self_pairs_excluded hit_hurt_world ⟨0, 1, true⟩
     (by rw [ensure_damage_hit_hurt]; exact List.mem_singleton.mpr rfl)⟩

/-- C1, counterexample: the generic-enemy damage resolver applies damage
from an event whose `can_hurt` flag is `false`: with enemy 0 at 1 hp and
attacker 1 dealing 1/2 damage, the event `{who := 0, by := 1,
can_hurt := false}` still reduces the enemy's hp to 1/2. -/
theorem c1_counterexample_enemy_damage_ignores_flag :
    health_of
      (enemy_health
        [({ id := 0, enemy := true, health := some ⟨1, 1⟩ } : Entity ℚ),
         { id := 1, damage_dealer := some (1 / 2) }]
        [⟨0, 1, false⟩] []).1 0 = some (1 / 2 : ℚ) ∧
    (1 / 2 : ℚ) ≠ 1 := by
  constructor
  · norm_num [enemy_health, enemy_health_step, enemy_hp, damage_of,
      find_entity, set_health, health_of]
  · norm_num

/-- C1, amended: `can_hurt` on every emitted event equals
`attacker.team != victim.team` computed at detection; the knockback
resolver ignores the flag entirely; the player damage resolver applies
damage only when the flag is true; but the generic-enemy damage resolver
also ignores the flag (it applies damage whenever the victim is a living
enemy and the attacker has a `DamageDealer`). -/
theorem c1_amended_team_gating :
    (∀ (world : List (Entity α)) (ev : HitEvent), ev ∈ ensure_damage world →
      ∃ hit hurt : Entity α, hit ∈ world ∧ hurt ∈ world ∧
        hit.id = ev.who ∧ hurt.id = ev.by_ ∧
        ∃ tv ta, hit.team = some tv ∧ hurt.team = some ta ∧
          ev.can_hurt = ta.can_hurt tv) ∧
    (∀ (world : List (Entity ℝ)) (ev : HitEvent) (b : Bool),
      knockback_step world { ev with can_hurt := b }
        = knockback_step world ev) ∧
    (∀ (world : List (Entity α)) (pid : Nat) (s : Player α × Health α)
      (ev : HitEvent), ev.can_hurt = false →
      player_health_step world pid s ev = s) ∧
    (∀ (wc : List (Entity α) × List Nat) (ev : HitEvent) (b : Bool),
      enemy_health_step wc { ev with can_hurt := b }
        = enemy_health_step wc ev) := by
  refine ⟨?_, ?_, ?_, ?_⟩
  · intro world ev h
    obtain ⟨hit, hurt, hhit, hhurt, hne, ht, ut, hteam1, hteam2, hev⟩ :=
      mem_ensure_damage h
    subst hev
    exact ⟨hit, hurt, hhit, hhurt, rfl, rfl, ht, ut, hteam1, hteam2, rfl⟩
  · intro world ev b
    cases ev
    rfl
  · intro world pid s ev h
    unfold player_health_step
    rw [h]
    split <;> rfl
  · intro wc ev b
    cases ev
    rfl

/-- C1, witness: the four parts of the amended claim instantiated — the
concrete emitted event of `hit_hurt_world` has its flag equal to the team
comparison, the knockback step is insensitive to the flag on a concrete
event, and a flag-false event leaves a concrete player state unchanged. -/
theorem c1_witness :
    ((⟨0, 1, true⟩ : HitEvent) ∈ ensure_damage hit_hurt_world ∧
      (∃ hit hurt : Entity ℚ, hit ∈ hit_hurt_world ∧ hurt ∈ hit_hurt_world ∧
        hit.id = 0 ∧ hurt.id = 1 ∧
        ∃ tv ta, hit.team = some tv ∧ hurt.team = some ta ∧
          true = ta.can_hurt tv)) ∧
    (knockback_step ([] : List (Entity ℝ)) ⟨0, 1, false⟩
      = knockback_step [] ⟨0, 1, true⟩) ∧
    ((⟨0, 1, false⟩ : HitEvent).can_hurt = false ∧
      player_health_step ([] : List (Entity ℚ)) 0 (⟨0⟩, ⟨1, 1⟩) ⟨0, 1, false⟩
        = (⟨0⟩, ⟨1, 1⟩)) ∧
    (enemy_health_step (([] : List (Entity ℚ)), []) ⟨0, 1, false⟩
      = enemy_health_step ([], []) ⟨0, 1, true⟩) :=
  ⟨⟨by rw [ensure_damage_hit_hurt]; exact List.mem_singleton.mpr rfl,
    (c1_amended_team_gating (α := ℚ)).1 hit_hurt_world ⟨0, 1, true⟩
      (by rw [ensure_damage_hit_hurt]; exact List.mem_singleton.mpr rfl)⟩,
   (c1_amended_team_gating (α := ℚ)).2.1 [] ⟨0, 1, true⟩ false,
   ⟨rfl, (c1_amended_team_gating (α := ℚ)).2.2.1 [] 0 (⟨0⟩, ⟨1, 1⟩)
      ⟨0, 1, false⟩ rfl⟩,
   (c1_amended_team_gating (α := ℚ)).2.2.2 ([], []) ⟨0, 1, true⟩ false⟩

/-- C8: the resolvers treat failed lookups as no-op skips: the knockback
resolver skips an event whose attacker is missing, or lacks
`KnockbackDealer` or `Position`, or whose victim is missing or lacks
`PhysicsMotion` or `Position`; the enemy damage resolver skips an event
whose victim is not a living enemy or whose attacker lacks
`DamageDealer`; the player damage resolver skips an event whose attacker
lacks `DamageDealer`.  In every case the world (and command buffer, and
player state) is left untouched. -/
theorem c8_resolvers_skip_missing_lookups :
    (∀ (world : List (Entity ℝ)) (ev : HitEvent),
      find_entity world ev.by_ = none → knockback_step world ev = world) ∧
    (∀ (world : List (Entity ℝ)) (ev : HitEvent) (d : Entity ℝ),
      find_entity world ev.by_ = some d → d.knockback = none ∨ d.pos = none →
      knockback_step world ev = world) ∧
    (∀ (world : List (Entity ℝ)) (ev : HitEvent),
      find_entity world ev.who = none → knockback_step world ev = world) ∧
    (∀ (world : List (Entity ℝ)) (ev : HitEvent) (v : Entity ℝ),
      find_entity world ev.who = some v → v.physics = none ∨ v.pos = none →
      knockback_step world ev = world) ∧
    (∀ (wc : List (Entity α) × List Nat) (ev : HitEvent),
      enemy_hp wc.1 ev.who = none → enemy_health_step wc ev = wc) ∧
    (∀ (wc : List (Entity α) × List Nat) (ev : HitEvent),
      damage_of wc.1 ev.by_ = none → enemy_health_step wc ev = wc) ∧
    (∀ (world : List (Entity α)) (pid : Nat) (s : Player α × Health α)
      (ev : HitEvent), damage_of world ev.by_ = none →
      player_health_step world pid s ev = s) := by
  refine ⟨?_, ?_, ?_, ?_, ?_, ?_, ?_⟩
  · intro world ev h
    unfold knockback_step
    rw [h]
    split <;> rfl
  · intro world ev d hfind hmiss
    unfold knockback_step
    rw [hfind]
    simp only [Option.some_bind]
    rcases hmiss with h | h
    · rw [h]
      split <;> rfl
    · rcases hk : d.knockback with _ | f
      · split <;> rfl
      · simp only [Option.some_bind]
        rw [h]
        split <;> rfl
  · intro world ev h
    unfold knockback_step
    rcases hd : find_entity world ev.by_ with _ | d
    · split <;> rfl
    · simp only [Option.some_bind]
      rcases hk : d.knockback with _ | f
      · split <;> rfl
      · simp only [Option.some_bind]
        rcases hp : d.pos with _ | dp
        · split <;> rfl
        · simp only [Option.some_bind]
          rw [h]
          split <;> rfl
  · intro world ev v hfind hmiss
    unfold knockback_step
    rcases hd : find_entity world ev.by_ with _ | d
    · split <;> rfl
    · simp only [Option.some_bind]
      rcases hk : d.knockback with _ | f
      · split <;> rfl
      · simp only [Option.some_bind]
        rcases hp : d.pos with _ | dp
        · split <;> rfl
        · simp only [Option.some_bind]
          rw [hfind]
          simp only [Option.some_bind]
          rcases hmiss with h | h
          · rw [h]
            split <;> rfl
          · rcases hph : v.physics with _ | pv
            · split <;> rfl
            · simp only [Option.some_bind]
              rw [h]
              split <;> rfl
  · intro wc ev h
    unfold enemy_health_step
    rw [h]
  · intro wc ev h
    unfold enemy_health_step
    rcases he : enemy_hp wc.1 ev.who with _ | hp0
    · rfl
    · rw [h]
  · intro world pid s ev h
    unfold player_health_step
    rw [h]
    split
    · split <;> rfl
    · rfl

/-- C8, witness: concrete skips — a knockback event whose attacker does
not exist, an enemy damage event whose victim is not an enemy, and a
player damage event whose attacker has no `DamageDealer` all leave the
state unchanged. -/
theorem c8_witness :
    (find_entity ([] : List (Entity ℝ)) 0 = none ∧
      knockback_step ([] : List (Entity ℝ)) ⟨1, 0, true⟩ = []) ∧
    (enemy_hp ([] : List (Entity ℚ)) 1 = none ∧
      enemy_health_step (([] : List (Entity ℚ)), []) ⟨1, 0, true⟩
        = ([], [])) ∧
    (damage_of ([] : List (Entity ℚ)) 0 = none ∧
      player_health_step ([] : List (Entity ℚ)) 1 (⟨0⟩, ⟨1, 1⟩) ⟨1, 0, true⟩
        = (⟨0⟩, ⟨1, 1⟩)) :=
  ⟨⟨rfl, (c8_resolvers_skip_missing_lookups (α := ℚ)).1 [] ⟨1, 0, true⟩ rfl⟩,
   ⟨rfl, (c8_resolvers_skip_missing_lookups (α := ℚ)).2.2.2.2.1 ([], [])
      ⟨1, 0, true⟩ rfl⟩,
   ⟨rfl, (c8_resolvers_skip_missing_lookups (α := ℚ)).2.2.2.2.2.2 [] 1
      (⟨0⟩, ⟨1, 1⟩) ⟨1, 0, true⟩ rfl⟩⟩

/-- C10: for an entity carrying `Position` together with both
`LinearMotion` and `PhysicsMotion`, one `apply_motion` pass advances its
position by `(linear.vel + physics.vel) * dt`: the two motion kinds
compound. -/
theorem c10_motion_kinds_compound (world : List (Entity α)) (dt : α)
    (e : Entity α) (l : Vec2 α) (ph : PhysicsMotion α) (q : Vec2 α)
    (hmem : e ∈ world) (hl : e.linear = some l) (hph : e.physics = some ph)
    (hq : e.pos = some q) :
    ∃ e', e' ∈ apply_motion world dt ∧ e'.id = e.id ∧
      e'.pos = some ⟨q.x + (l.x + ph.vel.x) * dt,
                     q.y + (l.y + ph.vel.y) * dt⟩ := by
  refine ⟨physics_step dt (torgue_step dt (linear_step dt e)), ?_, ?_, ?_⟩
  · unfold apply_motion
    exact List.mem_map_of_mem _
      (List.mem_map_of_mem _ (List.mem_map_of_mem _ hmem))
  · have h1 := linear_step_eq dt e l q hl hq
    have h2 := torgue_step_preserves dt (linear_step dt e)
    have h3 := physics_step_eq dt (torgue_step dt (linear_step dt e)) ph
      ⟨q.x + l.x * dt, q.y + l.y * dt⟩
      (by rw [h2.2.2, h1]; exact hph) (by rw [h2.1, h1])
    rw [h3, h2.2.1, h1]
  · have h1 := linear_step_eq dt e l q hl hq
    have h2 := torgue_step_preserves dt (linear_step dt e)
    have h3 := physics_step_eq dt (torgue_step dt (linear_step dt e)) ph
      ⟨q.x + l.x * dt, q.y + l.y * dt⟩
      (by rw [h2.2.2, h1]; exact hph) (by rw [h2.1, h1])
    rw [h3]
    have : q.x + l.x * dt + ph.vel.x * dt = q.x + (l.x + ph.vel.x) * dt := by
      ring
    rw [this]
    have : q.y + l.y * dt + ph.vel.y * dt = q.y + (l.y + ph.vel.y) * dt := by
      ring
    rw [this]

/-- C10, witness: a concrete entity with both motion kinds moves by the
sum of the two velocities. -/
theorem c10_witness :
    (({ id := 0, pos := some ⟨1, 1⟩, linear := some ⟨2, 0⟩,
        physics := some ⟨⟨0, 3⟩, 5⟩ } : Entity ℚ)
      ∈ [({ id := 0, pos := some ⟨1, 1⟩, linear := some ⟨2, 0⟩,
            physics := some ⟨⟨0, 3⟩, 5⟩ } : Entity ℚ)]) ∧
    (∃ e', e' ∈ apply_motion
        [({ id := 0, pos := some ⟨1, 1⟩, linear := some ⟨2, 0⟩,
            physics := some ⟨⟨0, 3⟩, 5⟩ } : Entity ℚ)] 2 ∧
      e'.id = 0 ∧
      e'.pos = some ⟨1 + (2 + 0) * 2, 1 + (0 + 3) * 2⟩) :=
  ⟨List.mem_singleton.mpr rfl,
   c10_motion_kinds_compound _ 2 _ ⟨2, 0⟩ ⟨⟨0, 3⟩, 5⟩ ⟨1, 1⟩
     (List.mem_singleton.mpr rfl) rfl rfl rfl⟩

/-- C5 (code bug): at `mul_factor = 1`, `flat_factor = 3`, `dt = 1` and
velocity `(2, 0)`, the damping phase takes the flat-subtraction branch
(the squared speed `4` exceeds `flat_factor = 3`) and subtracts
`flat_factor * dt = 3` along the direction `(1, 0)`, producing `(-1, 0)`:
the resulting velocity points opposite to the pre-damping velocity,
contradicting both the claim and the source's own documentation of
`PhysicsDamping.flat_factor` ("cannot make the entity's velocity face
opposite direction"). -/
theorem c5_flat_damping_reverses_direction :
    damp_velocity ⟨1, 3⟩ 1 ⟨2, 0⟩ = ⟨-1, 0⟩ ∧
    (damp_velocity ⟨1, 3⟩ 1 ⟨2, 0⟩).x * (2 : ℝ) < 0 := by
  have hlen : Vec2.length (⟨2, 0⟩ : Vec2 ℝ) = 2 := by
    unfold Vec2.length Vec2.length_squared
    norm_num
    rw [show (4 : ℝ) = 2 ^ 2 by norm_num,
      Real.sqrt_sq (by norm_num : (0 : ℝ) ≤ 2)]
  have hnorm : Vec2.normalize_or_zero (⟨2, 0⟩ : Vec2 ℝ) = ⟨1, 0⟩ := by
    unfold Vec2.normalize_or_zero
    rw [hlen, if_pos (by norm_num : (0 : ℝ) < 2)]
    ext <;> norm_num
  have key : damp_velocity ⟨1, 3⟩ 1 ⟨2, 0⟩ = ⟨-1, 0⟩ := by
    unfold damp_velocity
    rw [show ((⟨1, 3⟩ : PhysicsDamping ℝ).mul_factor ^ (1 : ℝ)) = 1 from
      Real.one_rpow 1]
    rw [show (1 : ℝ) • (⟨2, 0⟩ : Vec2 ℝ) = ⟨2, 0⟩ by ext <;> norm_num]
    have hc : ¬ ((⟨2, 0⟩ : Vec2 ℝ).length_squared
        ≤ (⟨1, 3⟩ : PhysicsDamping ℝ).flat_factor) := by
      norm_num [Vec2.length_squared]
    rw [if_neg hc, hnorm]
    ext <;> norm_num
  exact ⟨key, by rw [key]; norm_num⟩

/-- C6, counterexample: two damaging events arriving in the same tick are
both applied.  With the player at 10 hp and an attacker dealing 2 damage,
a single `player_health` call processing two identical damaging events
leaves the player at `10 - 2 - 2 = 6` hp, even though the first event set
the invulnerability timer to the (positive) cooldown: the further event
of the same batch was not ignored, contrary to the claim (which would
leave 8 hp). -/
theorem c6_counterexample_two_hits_same_tick :
    (player_health
        [({ id := 0, player := some ⟨0⟩, health := some ⟨10, 10⟩ } : Entity ℚ),
         { id := 1, damage_dealer := some 2 }]
        [⟨0, 1, true⟩, ⟨0, 1, true⟩] (1 / 10)).bind
      (fun w => health_of w 0) = some 6 ∧ (6 : ℚ) ≠ 8 := by
  constructor
  · norm_num [player_health, player_health_step, find_player, find_entity,
      damage_of, set_player, health_of, Health.heal, player_base_hp_regen,
      player_invul_cooldown]
  · norm_num

/-- C6, amended: once the player takes damage, the invulnerability timer
is set to the cooldown, and on every later tick on which the decremented
timer is still positive the whole call is a no-op apart from storing the
decremented timer — every damage event of that tick is ignored and
passive regeneration is skipped.  Damaging events arriving in the same
tick as the hit are, however, still applied (the timer is only consulted
once, at the start of the call). -/
theorem c6_amended_invulnerability_gating :
    (∀ (world : List (Entity α)) (events : List HitEvent) (dt : α)
      (pe : Entity α) (p : Player α) (hp : Health α),
      find_player world = some pe → pe.player = some p →
      pe.health = some hp → p.invul_timer - dt > 0 →
      player_health world events dt
        = some (set_player world pe.id
            { invul_timer := p.invul_timer - dt } hp)) ∧
    (∀ (world : List (Entity α)) (pid : Nat) (s : Player α × Health α)
      (ev : HitEvent) (dmg : α),
      ev.who = pid → ev.can_hurt = true → damage_of world ev.by_ = some dmg →
      player_health_step world pid s ev
        = ({ invul_timer := player_invul_cooldown },
           { s.2 with hp := s.2.hp - dmg })) := by
  constructor
  · intro world events dt pe p hp hfind hp1 hh1 htimer
    unfold player_health
    rw [hfind]
    simp only [Option.some_bind]
    rw [hp1]
    simp only [Option.some_bind]
    rw [hh1]
    simp only [Option.map_some']
    rw [if_pos htimer]
  · intro world pid s ev dmg hwho hch hdmg
    unfold player_health_step
    rw [if_pos hwho, hch, if_pos rfl, hdmg]

/-- C6, witness: a player whose timer stays positive after decrement
keeps its hp through a tick, and a concrete damaging step subtracts the
damage while starting the cooldown. -/
theorem c6_witness :
    ((5 : ℚ) - 1 > 0 ∧
      player_health
        [({ id := 0, player := some ⟨5⟩, health := some ⟨10, 7⟩ } : Entity ℚ)]
        [] 1
      = some (set_player
          [({ id := 0, player := some ⟨5⟩,
              health := some ⟨10, 7⟩ } : Entity ℚ)] 0
          { invul_timer := (5 : ℚ) - 1 } ⟨10, 7⟩)) ∧
    (damage_of [({ id := 1, damage_dealer := some 2 } : Entity ℚ)] 1
        = some (2 : ℚ) ∧
      player_health_step [({ id := 1, damage_dealer := some 2 } : Entity ℚ)]
        0 (⟨0⟩, ⟨10, 10⟩) ⟨0, 1, true⟩
      = ({ invul_timer := player_invul_cooldown },
         { max_hp := 10, hp := (10 : ℚ) - 2 })) :=
  ⟨⟨by norm_num,
    (c6_amended_invulnerability_gating (α := ℚ)).1 _ [] 1
      ({ id := 0, player := some ⟨5⟩, health := some ⟨10, 7⟩ } : Entity ℚ)
      ⟨5⟩ ⟨10, 7⟩ rfl rfl rfl (by norm_num)⟩,
   ⟨rfl,
    (c6_amended_invulnerability_gating (α := ℚ)).2 _ 0 (⟨0⟩, ⟨10, 10⟩)
      ⟨0, 1, true⟩ 2 rfl rfl rfl⟩⟩

/-- C7: one knockback application on a victim at a position distinct from
the dealer's changes the victim's velocity by exactly
`dealer.force / victim.mass` in magnitude: the force is applied through
`apply_force` with the fixed `dt = 1.0`, and `apply_knockback` takes no
frame `dt` at all, so the delta is independent of frame time.  In
particular (witness) force 500 and mass 10 give a speed delta of exactly
50. -/
theorem c7_knockback_impulse_magnitude (pa pb v0 : Vec2 ℝ) (f m : ℝ)
    (hne : pa ≠ pb) (hm : 0 < m) (hf : 0 ≤ f) :
    apply_knockback
        [{ id := 0, pos := some pa, knockback := some f },
         { id := 1, pos := some pb, physics := some ⟨v0, m⟩ }]
        [⟨1, 0, true⟩]
      = set_physics
          [{ id := 0, pos := some pa, knockback := some f },
           { id := 1, pos := some pb, physics := some ⟨v0, m⟩ }] 1
          ⟨v0 + ((1 : ℝ) / m) • (f • Vec2.normalize_or_zero (pb - pa)), m⟩ ∧
    Vec2.length (((1 : ℝ) / m) • (f • Vec2.normalize_or_zero (pb - pa)))
      = f / m := by
  constructor
  · rfl
  · have hd : pb - pa ≠ 0 := Vec2.sub_ne_zero (Ne.symm hne)
    rw [Vec2.length_smul, Vec2.length_smul,
      Vec2.length_normalize_or_zero hd,
      abs_of_pos (by positivity : (0 : ℝ) < 1 / m), abs_of_nonneg hf]
    field_simp

/-- C7, witness: with dealer force 500 and victim mass 10 one knockback
application adds a velocity delta of magnitude exactly 50. -/
theorem c7_witness :
    ((⟨0, 0⟩ : Vec2 ℝ) ≠ ⟨1, 0⟩ ∧ (0 : ℝ) < 10 ∧ (0 : ℝ) ≤ 500) ∧
    (apply_knockback
        [({ id := 0, pos := some ⟨0, 0⟩, knockback := some 500 } : Entity ℝ),
         { id := 1, pos := some ⟨1, 0⟩, physics := some ⟨⟨0, 0⟩, 10⟩ }]
        [⟨1, 0, true⟩]
      = set_physics
          [({ id := 0, pos := some ⟨0, 0⟩,
              knockback := some 500 } : Entity ℝ),
           { id := 1, pos := some ⟨1, 0⟩, physics := some ⟨⟨0, 0⟩, 10⟩ }] 1
          ⟨⟨0, 0⟩ + ((1 : ℝ) / 10)
              • ((500 : ℝ) • Vec2.normalize_or_zero (⟨1, 0⟩ - ⟨0, 0⟩)), 10⟩ ∧
      Vec2.length (((1 : ℝ) / 10)
          • ((500 : ℝ) • Vec2.normalize_or_zero (⟨1, 0⟩ - ⟨0, 0⟩)))
        = 500 / 10) :=
  ⟨⟨by intro hc; have hx := congrArg Vec2.x hc; norm_num at hx,
    by norm_num, by norm_num⟩,
   c7_knockback_impulse_magnitude ⟨0, 0⟩ ⟨1, 0⟩ ⟨0, 0⟩ 500 10
     (by intro hc; have hx := congrArg Vec2.x hc; norm_num at hx)
     (by norm_num) (by norm_num)⟩

/-- C9: when attacker and victim positions coincide, the knockback
resolver leaves the victim's velocity unchanged (the normalisation
returns the zero vector, so the applied delta is zero), and for any pair
of positions the applied delta has magnitude at most `|force| / mass` —
the resolver never produces an unbounded velocity. -/
theorem c9_knockback_zero_on_coincident (p v0 : Vec2 ℝ) (f m : ℝ)
    (hm : 0 < m) :
    apply_knockback
        [{ id := 0, pos := some p, knockback := some f },
         { id := 1, pos := some p, physics := some ⟨v0, m⟩ }]
        [⟨1, 0, true⟩]
      = set_physics
          [{ id := 0, pos := some p, knockback := some f },
           { id := 1, pos := some p, physics := some ⟨v0, m⟩ }] 1
          ⟨v0, m⟩ ∧
    ∀ pa pb : Vec2 ℝ,
      Vec2.length (((1 : ℝ) / m) • (f • Vec2.normalize_or_zero (pb - pa)))
        ≤ |f| / m := by
  constructor
  · have harg : PhysicsMotion.apply_force ⟨v0, m⟩
        (f • Vec2.normalize_or_zero (p - p)) 1 = ⟨v0, m⟩ := by
      unfold PhysicsMotion.apply_force
      rw [Vec2.sub_self, Vec2.normalize_or_zero_zero, Vec2.smul_zero,
        Vec2.smul_zero, Vec2.add_zero_right]
    have h0 : apply_knockback
        [{ id := 0, pos := some p, knockback := some f },
         { id := 1, pos := some p, physics := some ⟨v0, m⟩ }]
        [⟨1, 0, true⟩]
      = set_physics
          [{ id := 0, pos := some p, knockback := some f },
           { id := 1, pos := some p, physics := some ⟨v0, m⟩ }] 1
          (PhysicsMotion.apply_force ⟨v0, m⟩
            (f • Vec2.normalize_or_zero (p - p)) 1) := rfl
    rw [h0, harg]
  · intro pa pb
    rcases eq_or_ne (pb - pa) 0 with h | h
    · rw [h, Vec2.normalize_or_zero_zero, Vec2.smul_zero, Vec2.smul_zero,
        Vec2.length_zero]
      positivity
    · rw [Vec2.length_smul, Vec2.length_smul,
        Vec2.length_normalize_or_zero h,
        abs_of_pos (by positivity : (0 : ℝ) < 1 / m)]
      have : 1 / m * (|f| * 1) = |f| / m := by ring
      rw [this]

/-- C9, witness: a concrete coincident pair leaves the velocity
unchanged, and the delta magnitude stays bounded. -/
theorem c9_witness :
    (0 : ℝ) < 10 ∧
    (apply_knockback
        [({ id := 0, pos := some ⟨2, 3⟩, knockback := some 500 } : Entity ℝ),
         { id := 1, pos := some ⟨2, 3⟩, physics := some ⟨⟨1, 1⟩, 10⟩ }]
        [⟨1, 0, true⟩]
      = set_physics
          [({ id := 0, pos := some ⟨2, 3⟩,
              knockback := some 500 } : Entity ℝ),
           { id := 1, pos := some ⟨2, 3⟩, physics := some ⟨⟨1, 1⟩, 10⟩ }] 1
          ⟨⟨1, 1⟩, 10⟩ ∧
      ∀ pa pb : Vec2 ℝ,
        Vec2.length (((1 : ℝ) / 10)
            • ((500 : ℝ) • Vec2.normalize_or_zero (pb - pa)))
          ≤ |(500 : ℝ)| / 10) :=
  ⟨by norm_num,
   c9_knockback_zero_on_coincident ⟨2, 3⟩ ⟨1, 1⟩ 500 10 (by norm_num)⟩

end InfoProject
